import Mathlib

/-!
Shallow embedding of `src/bin/calculate_network_order.py`, the three-phase
pipeline driver that converts road-network attribute files to binary vectors,
invokes an external node-ordering computation, and converts its result back
to text.

Modelling choices:
* The filesystem is an association list from path strings to entry kinds
  (file or directory); `os.path.exists` is `existsPath` (any kind matches).
* `os.mkdir` can fail: when the path already exists, or when it lies in a
  `denied` list standing for external failure causes such as permissions.
  An uncaught failure is threaded as `Option Err`, and execution stops at
  the first failure while keeping the state reached so far, mirroring a
  Python exception unwinding out of `__main__`.
* `subprocess.run(args)` is `call_subprocess`: it records an `Event.exec args`
  in the trace and obtains the child's exit code from an oracle
  `results : List String → Int`, which it ignores, exactly as the source
  ignores the `CompletedProcess` value.
* `sys.argv` is a `List String` (element 0 being the script name); an
  out-of-range access raises `Err.indexError i` at the point of access.
-/

inductive Entry where
  | file : Entry
  | dir : Entry
deriving DecidableEq, Repr

abbrev FS := List (String × Entry)

/-- `os.path.exists`: true when any entry (file or directory) has this path. -/
def existsPath (fs : FS) (p : String) : Bool :=
  fs.any (fun e => e.1 == p)

inductive Err where
  | mkdirFailed : String → Err
  | indexError : Nat → Err
deriving DecidableEq, Repr

inductive Event where
  | mkdirE : String → Event
  | exec : List String → Event
deriving DecidableEq, Repr

/-- Driver state: the filesystem plus the trace of effects so far. -/
structure St where
  fs : FS
  events : List Event
deriving DecidableEq, Repr

/-- `os.mkdir p`: fails when `p` exists or creation is externally denied;
otherwise records the new directory. -/
def mkdir (denied : List String) (p : String) (s : St) : St × Option Err :=
  if existsPath s.fs p || denied.contains p then
    (s, some (Err.mkdirFailed p))
  else
    (St.mk ((p, Entry.dir) :: s.fs) (s.events ++ [Event.mkdirE p]), none)

/-- The inline layout-manager pattern `if not os.path.exists(p): os.mkdir(p)`
shared by `convert_network_into_binary` and `compute_ordering`. -/
def ensure_dir (denied : List String) (p : String) (s : St) : St × Option Err :=
  if existsPath s.fs p then (s, none) else mkdir denied p s

/-- `call_subprocess(args)`: traces the invocation and runs the child,
ignoring the returned completion value (the exit code oracle `results`). -/
def call_subprocess (results : List String → Int) (args : List String) (s : St) : St :=
  let _completed := results args
  St.mk s.fs (s.events ++ [Event.exec args])

/-- `convert_network_into_binary(inertial_flow_path, data_path, file)`. -/
def convert_network_into_binary (results : List String → Int) (denied : List String)
    (inertial_flow_path data_path file : String) (s : St) : St × Option Err :=
  let args := [inertial_flow_path ++ "/build/console"]
  let args := args ++ ["text_to_binary_vector"]
  let args := args ++ [data_path ++ "/" ++ file]
  match ensure_dir denied (data_path ++ "/binary") s with
  | (s, some e) => (s, some e)
  | (s, none) =>
    let args := args ++ [data_path ++ "/binary/" ++ file]
    (call_subprocess results args s, none)

/-- `compute_ordering(inertial_flow_path, data_path, file)`. -/
def compute_ordering (results : List String → Int) (denied : List String)
    (inertial_flow_path data_path file : String) (s : St) : St × Option Err :=
  let args := ["python3"]
  let args := args ++ [inertial_flow_path ++ "/inertialflowcutter_order.py"]
  let args := args ++ [data_path ++ "/binary/"]
  match ensure_dir denied (data_path ++ "/ordering") s with
  | (s, some e) => (s, some e)
  | (s, none) =>
    let args := args ++ [data_path ++ "/ordering/" ++ file ++ "_bin"]
    (call_subprocess results args s, none)

/-- `convert_ordering_into_text(inertial_flow_path, data_path, file)`:
pure trace effect, no directory creation, so it cannot fail in this model. -/
def convert_ordering_into_text (results : List String → Int)
    (inertial_flow_path data_path file : String) (s : St) : St :=
  let args := [inertial_flow_path ++ "/build/console"]
  let args := args ++ ["binary_to_text_vector"]
  let args := args ++ [data_path ++ "/ordering/" ++ file ++ "_bin"]
  let args := args ++ [data_path ++ "/ordering/" ++ file]
  call_subprocess results args s

/-- The fixed ordered attribute-name list of the `__main__` loop. -/
def attribute_files : List String :=
  ["head", "travel_time", "first_out", "latitude", "longitude"]

/-- Sequencing of effectful steps: a raised error short-circuits, keeping
the state reached so far. -/
def andThen (r : St × Option Err) (f : St → St × Option Err) : St × Option Err :=
  match r with
  | (s, none) => f s
  | (s, some e) => (s, some e)

/-- `sys.argv[i]`: yields the argument or raises `IndexError` at index `i`. -/
def withArg (argv : List String) (i : Nat) (s : St)
    (k : String → St × Option Err) : St × Option Err :=
  match argv.get? i with
  | some v => k v
  | none => (s, some (Err.indexError i))

/-- The `__main__` block: phase 1 loops the five conversions, phase 2 computes
the ordering, phase 3 converts it back to text; `sys.argv` is re-read at each
call site, in left-to-right order. -/
def main_run (results : List String → Int) (denied : List String)
    (argv : List String) (fs0 : FS) : St × Option Err :=
  andThen
    (attribute_files.foldl
      (fun r f => andThen r (fun s =>
        withArg argv 1 s (fun ifp =>
          withArg argv 2 s (fun dp =>
            convert_network_into_binary results denied ifp dp f s))))
      (St.mk fs0 [], none))
    (fun s =>
      withArg argv 1 s (fun ifp =>
        withArg argv 2 s (fun dp =>
          withArg argv 3 s (fun g =>
            andThen (compute_ordering results denied ifp dp g s)
              (fun s2 =>
                withArg argv 1 s2 (fun ifp2 =>
                  withArg argv 2 s2 (fun dp2 =>
                    withArg argv 3 s2 (fun g2 =>
                      (convert_ordering_into_text results ifp2 dp2 g2 s2, none)))))))))

/-- The exec events of a trace, in order. -/
def execs : List Event → List (List String)
  | [] => []
  | Event.exec a :: es => a :: execs es
  | Event.mkdirE _ :: es => execs es

/-- The expected process call of one phase-1 conversion. -/
def conv_call (ifp dp f : String) : List String :=
  [ifp ++ "/build/console", "text_to_binary_vector", dp ++ "/" ++ f, dp ++ "/binary/" ++ f]

/-- The expected process call of the phase-2 ordering computation. -/
def order_call (ifp dp g : String) : List String :=
  ["python3", ifp ++ "/inertialflowcutter_order.py", dp ++ "/binary/",
   dp ++ "/ordering/" ++ g ++ "_bin"]

/-- The expected process call of the phase-3 back-conversion. -/
def text_call (ifp dp g : String) : List String :=
  [ifp ++ "/build/console", "binary_to_text_vector", dp ++ "/ordering/" ++ g ++ "_bin",
   dp ++ "/ordering/" ++ g]

/-- The trace left by a complete phase 1 starting from an empty filesystem. -/
def phase1_events (ifp dp : String) : List Event :=
  Event.mkdirE (dp ++ "/binary") ::
    attribute_files.map (fun f => Event.exec (conv_call ifp dp f))

/-- The trace left by a complete run starting from an empty filesystem. -/
def full_events (ifp dp g : String) : List Event :=
  phase1_events ifp dp ++
    [Event.mkdirE (dp ++ "/ordering"), Event.exec (order_call ifp dp g),
     Event.exec (text_call ifp dp g)]

theorem str_append_cancel_left (s : String) {t u : String} :
    s ++ t = s ++ u ↔ t = u := by
  constructor
  · intro h
    apply String.ext
    have h2 := congrArg String.data h
    simpa using h2
  · intro h
    rw [h]

theorem beq_append_left (s t u : String) : (s ++ t == s ++ u) = (t == u) := by
  rw [Bool.eq_iff_iff]
  simp [str_append_cancel_left]

theorem binary_beq_ordering (dp : String) :
    (dp ++ "/binary" == dp ++ "/ordering") = false := by
  rw [beq_append_left]; decide

theorem ordering_beq_binary (dp : String) :
    (dp ++ "/ordering" == dp ++ "/binary") = false := by
  rw [beq_append_left]; decide

/-- Master characterization: with the three positional arguments present, an
empty starting filesystem and no denied creation, a run always completes
with the two directories created and the full nine-event trace, whatever
the children's exit codes. -/
theorem main_run_full (results : List String → Int) (p ifp dp g : String) :
    main_run results [] [p, ifp, dp, g] [] =
      (St.mk [(dp ++ "/ordering", Entry.dir), (dp ++ "/binary", Entry.dir)]
        (full_events ifp dp g), none) := by
  simp [main_run, attribute_files, andThen, withArg, convert_network_into_binary,
    compute_ordering, convert_ordering_into_text, ensure_dir, mkdir, call_subprocess,
    existsPath, full_events, phase1_events, conv_call, order_call, text_call,
    List.get?, binary_beq_ordering, ordering_beq_binary]

/-- Master characterization for a run with only two positional arguments:
phase 1 completes in full, then the first read of `sys.argv[3]` raises. -/
theorem main_run_two_args (results : List String → Int) (p ifp dp : String) :
    main_run results [] [p, ifp, dp] [] =
      (St.mk [(dp ++ "/binary", Entry.dir)] (phase1_events ifp dp),
        some (Err.indexError 3)) := by
  simp [main_run, attribute_files, andThen, withArg, convert_network_into_binary,
    compute_ordering, convert_ordering_into_text, ensure_dir, mkdir, call_subprocess,
    existsPath, phase1_events, conv_call, List.get?]

/-- The destination argument (the last one) of a traced process call. -/
def dest_of : Event → Option String
  | Event.exec a => a.getLast?
  | Event.mkdirE _ => none

theorem convert_events (results : List String → Int) (denied : List String)
    (ifp dp f : String) (s s1 : St)
    (h : convert_network_into_binary results denied ifp dp f s = (s1, none)) :
    s1.events = s.events ++ [Event.exec (conv_call ifp dp f)] ∨
    s1.events = s.events ++
      [Event.mkdirE (dp ++ "/binary"), Event.exec (conv_call ifp dp f)] := by
  cases he : existsPath s.fs (dp ++ "/binary") with
  | true =>
    left
    simp only [convert_network_into_binary, ensure_dir, he, if_true] at h
    injection h with h1 _
    subst h1
    simp [call_subprocess, conv_call]
  | false =>
    cases hd : denied.contains (dp ++ "/binary") with
    | true =>
      have hmem : dp ++ "/binary" ∈ denied := by simpa using hd
      simp [convert_network_into_binary, ensure_dir, mkdir, he, hmem] at h
    | false =>
      right
      simp only [convert_network_into_binary, ensure_dir, mkdir, he, hd,
        Bool.or_self, if_false, Bool.false_eq_true] at h
      injection h with h1 _
      subst h1
      simp [call_subprocess, conv_call]

theorem compute_ordering_events (results : List String → Int) (denied : List String)
    (ifp dp g : String) (s s1 : St)
    (h : compute_ordering results denied ifp dp g s = (s1, none)) :
    s1.events = s.events ++ [Event.exec (order_call ifp dp g)] ∨
    s1.events = s.events ++
      [Event.mkdirE (dp ++ "/ordering"), Event.exec (order_call ifp dp g)] := by
  cases he : existsPath s.fs (dp ++ "/ordering") with
  | true =>
    left
    simp only [compute_ordering, ensure_dir, he, if_true] at h
    injection h with h1 _
    subst h1
    simp [call_subprocess, order_call]
  | false =>
    cases hd : denied.contains (dp ++ "/ordering") with
    | true =>
      have hmem : dp ++ "/ordering" ∈ denied := by simpa using hd
      simp [compute_ordering, ensure_dir, mkdir, he, hmem] at h
    | false =>
      right
      simp only [compute_ordering, ensure_dir, mkdir, he, hd,
        Bool.or_self, if_false, Bool.false_eq_true] at h
      injection h with h1 _
      subst h1
      simp [call_subprocess, order_call]

theorem mk_ne_of_second (c a₁ a₂ : Char) (l₁ l₂ : List Char) (h : a₁ ≠ a₂) :
    String.mk (c :: a₁ :: l₁) ≠ String.mk (c :: a₂ :: l₂) := by
  intro hc
  apply h
  have h2 : c :: a₁ :: l₁ = c :: a₂ :: l₂ := by
    have h3 := congrArg String.data hc
    simpa using h3
  injection h2 with _ h4
  injection h4

/-- A phase-1 binary destination never coincides with a source attribute path:
after the shared leading `d ++ "/"`, one continues with `binary/…`, the other
with an attribute name, none of which starts with `b`. -/
theorem bin_dest_ne_src (d : String) (n m : String) (hn : n ∈ attribute_files)
    (hm : m ∈ attribute_files) : d ++ "/binary/" ++ n ≠ d ++ "/" ++ m := by
  fin_cases hn <;> fin_cases hm <;>
    · intro hc
      simp only [String.append_assoc] at hc
      exact absurd ((str_append_cancel_left d).mp hc)
        (mk_ne_of_second _ _ _ _ _ (by decide))

/-- The phase-2 destination never coincides with a source attribute path. -/
theorem ordbin_dest_ne_src (d : String) (g m : String) (hm : m ∈ attribute_files) :
    d ++ "/ordering/" ++ g ++ "_bin" ≠ d ++ "/" ++ m := by
  obtain ⟨lg⟩ := g
  fin_cases hm <;>
    · intro hc
      simp only [String.append_assoc] at hc
      exact absurd ((str_append_cancel_left d).mp hc)
        (mk_ne_of_second _ _ _ _ _ (by decide))

/-- The phase-3 destination never coincides with a source attribute path. -/
theorem ord_dest_ne_src (d : String) (g m : String) (hm : m ∈ attribute_files) :
    d ++ "/ordering/" ++ g ≠ d ++ "/" ++ m := by
  obtain ⟨lg⟩ := g
  fin_cases hm <;>
    · intro hc
      simp only [String.append_assoc] at hc
      exact absurd ((str_append_cancel_left d).mp hc)
        (mk_ne_of_second _ _ _ _ _ (by decide))

theorem getLast_app {α : Type} (l : List α) (a : α) : (l ++ [a]).getLast? = some a := by
  simp

theorem getLast_app2 {α : Type} (l : List α) (a b : α) :
    (l ++ [a, b]).getLast? = some b := by
  simp

theorem ensure_dir_of_exists {s : St} {p : String} (denied : List String)
    (he : existsPath s.fs p = true) : ensure_dir denied p s = (s, none) := by
  simp [ensure_dir, he]

theorem ensure_dir_of_new {s : St} {p : String} {denied : List String}
    (he : existsPath s.fs p = false) (hd : denied.contains p = false) :
    ensure_dir denied p s =
      (St.mk ((p, Entry.dir) :: s.fs) (s.events ++ [Event.mkdirE p]), none) := by
  have hmem : p ∉ denied := by simpa using hd
  simp [ensure_dir, mkdir, he, hmem]

theorem ensure_dir_of_denied {s : St} {p : String} {denied : List String}
    (he : existsPath s.fs p = false) (hd : denied.contains p = true) :
    ensure_dir denied p s = (s, some (Err.mkdirFailed p)) := by
  have hmem : p ∈ denied := by simpa using hd
  simp [ensure_dir, mkdir, he, hmem]

/-- An exit-code oracle standing for a converter that fails loudly on the
first phase-1 conversion, e.g. because its source file `/d/head` is missing. -/
def head_failing_results : List String → Int :=
  fun args => if args = conv_call "/t" "/d" "head" then 1 else 0

/-- Claim C1 (counterexample): with a converter that fails on the very first
phase-1 file, the pipeline does not abort — the run completes, the
`ordering/` directory is created, and the phase-2 ordering process is still
invoked, refuting "the pipeline aborts before Phase 2 begins" and
"`ordering/` is never created". -/
theorem C1_counterexample :
    head_failing_results (conv_call "/t" "/d" "head") = 1 ∧
    (main_run head_failing_results [] ["prog", "/t", "/d", "g"] []).2 = none ∧
    existsPath (main_run head_failing_results [] ["prog", "/t", "/d", "g"] []).1.fs
      ("/d" ++ "/ordering") = true ∧
    Event.exec (order_call "/t" "/d" "g") ∈
      (main_run head_failing_results [] ["prog", "/t", "/d", "g"] []).1.events := by
  decide

/-- Claim C1 (amended): if the external converter for the first phase-1 file
fails, the pipeline does NOT abort: since the driver never inspects exit
codes, the run completes under any exit-code oracle, Phase 2 is still
invoked, and the `ordering/` subdirectory is still created. -/
theorem C1_failed_converter_does_not_abort (results : List String → Int)
    (p ifp dp g : String) :
    (main_run results [] [p, ifp, dp, g] []).2 = none ∧
    existsPath (main_run results [] [p, ifp, dp, g] []).1.fs (dp ++ "/ordering") = true ∧
    Event.exec (order_call ifp dp g) ∈ (main_run results [] [p, ifp, dp, g] []).1.events := by
  rw [main_run_full]
  refine ⟨rfl, ?_, ?_⟩
  · simp [existsPath]
  · simp [full_events, phase1_events]

/-- Claim C2: the driver never inspects a child process's exit status — the
whole run is identical under any two exit-code oracles, so an abnormal
termination is indistinguishable from success — and with the three
positional arguments present the pipeline always proceeds through every
step and completes. -/
theorem C2_exit_status_never_inspected (r1 r2 : List String → Int)
    (denied : List String) (argv : List String) (fs0 : FS) (p ifp dp g : String) :
    main_run r1 denied argv fs0 = main_run r2 denied argv fs0 ∧
    (main_run r1 [] [p, ifp, dp, g] []).2 = none := by
  refine ⟨rfl, ?_⟩
  rw [main_run_full]

/-- Claim C3: the argument list constructed for the external converter is
exactly `[converter, mode, source, destination]` — in phase 1 with mode
`text_to_binary_vector`, in phase 3 with mode `binary_to_text_vector` —
with no reordering and no extra arguments. -/
theorem C3_converter_argument_lists (results : List String → Int)
    (denied : List String) (ifp dp f g : String) (s t s1 : St)
    (h : convert_network_into_binary results denied ifp dp f s = (s1, none)) :
    (s1.events = s.events ++ [Event.exec (conv_call ifp dp f)] ∨
     s1.events = s.events ++
       [Event.mkdirE (dp ++ "/binary"), Event.exec (conv_call ifp dp f)]) ∧
    (convert_ordering_into_text results ifp dp g t).events =
      t.events ++ [Event.exec (text_call ifp dp g)] :=
  ⟨convert_events results denied ifp dp f s s1 h, rfl⟩

/-- Witness for C3 at concrete inputs. -/
theorem C3_witness :
    ((St.mk [("/d/binary", Entry.dir)] [Event.exec (conv_call "/t" "/d" "head")]).events =
       (St.mk [("/d/binary", Entry.dir)] []).events ++
         [Event.exec (conv_call "/t" "/d" "head")] ∨
     (St.mk [("/d/binary", Entry.dir)] [Event.exec (conv_call "/t" "/d" "head")]).events =
       (St.mk [("/d/binary", Entry.dir)] []).events ++
         [Event.mkdirE ("/d" ++ "/binary"), Event.exec (conv_call "/t" "/d" "head")]) ∧
    (convert_ordering_into_text (fun _ => 0) "/t" "/d" "g" (St.mk [] [])).events =
      (St.mk [] []).events ++ [Event.exec (text_call "/t" "/d" "g")] :=
  C3_converter_argument_lists (fun _ => 0) [] "/t" "/d" "head" "g"
    (St.mk [("/d/binary", Entry.dir)] []) (St.mk [] [])
    (St.mk [("/d/binary", Entry.dir)] [Event.exec (conv_call "/t" "/d" "head")])
    (by decide)

/-- Claim C4: output paths are fully determined by the inputs — the phase-1
binary destination (the last argument of the traced call) is always
`d ++ "/binary/" ++ n`, the phase-2 destination is always
`d ++ "/ordering/" ++ g ++ "_bin"`, and the phase-3 final destination is
always `d ++ "/ordering/" ++ g`. -/
theorem C4_path_determinism (results : List String → Int) (denied : List String)
    (ifp d n g : String) (s1 s2 s3 s1' s2' : St)
    (h1 : convert_network_into_binary results denied ifp d n s1 = (s1', none))
    (h2 : compute_ordering results denied ifp d g s2 = (s2', none)) :
    (∃ a, s1'.events.getLast? = some (Event.exec a) ∧
       a.getLast? = some (d ++ "/binary/" ++ n)) ∧
    (∃ a, s2'.events.getLast? = some (Event.exec a) ∧
       a.getLast? = some (d ++ "/ordering/" ++ g ++ "_bin")) ∧
    ((convert_ordering_into_text results ifp d g s3).events.getLast? =
       some (Event.exec (text_call ifp d g)) ∧
     (text_call ifp d g).getLast? = some (d ++ "/ordering/" ++ g)) := by
  refine ⟨⟨conv_call ifp d n, ?_, rfl⟩, ⟨order_call ifp d g, ?_, rfl⟩, ?_, rfl⟩
  · rcases convert_events results denied ifp d n s1 s1' h1 with h | h <;> rw [h]
    · exact getLast_app _ _
    · exact getLast_app2 _ _ _
  · rcases compute_ordering_events results denied ifp d g s2 s2' h2 with h | h <;> rw [h]
    · exact getLast_app _ _
    · exact getLast_app2 _ _ _
  · exact getLast_app s3.events (Event.exec (text_call ifp d g))

/-- Witness for C4 at concrete inputs. -/
theorem C4_witness :
    (∃ a, (St.mk [("/d/binary", Entry.dir)]
        [Event.exec (conv_call "/t" "/d" "head")]).events.getLast? =
          some (Event.exec a) ∧
       a.getLast? = some ("/d" ++ "/binary/" ++ "head")) ∧
    (∃ a, (St.mk [("/d/ordering", Entry.dir)]
        [Event.exec (order_call "/t" "/d" "g")]).events.getLast? =
          some (Event.exec a) ∧
       a.getLast? = some ("/d" ++ "/ordering/" ++ "g" ++ "_bin")) ∧
    ((convert_ordering_into_text (fun _ => 0) "/t" "/d" "g" (St.mk [] [])).events.getLast? =
       some (Event.exec (text_call "/t" "/d" "g")) ∧
     (text_call "/t" "/d" "g").getLast? = some ("/d" ++ "/ordering/" ++ "g")) :=
  C4_path_determinism (fun _ => 0) [] "/t" "/d" "head" "g"
    (St.mk [("/d/binary", Entry.dir)] []) (St.mk [("/d/ordering", Entry.dir)] [])
    (St.mk [] [])
    (St.mk [("/d/binary", Entry.dir)] [Event.exec (conv_call "/t" "/d" "head")])
    (St.mk [("/d/ordering", Entry.dir)] [Event.exec (order_call "/t" "/d" "g")])
    (by decide) (by decide)

/-- Claim C5: the run's process-call trace is exactly the five phase-1
conversions in the fixed order head, travel_time, first_out, latitude,
longitude, then the single phase-2 ordering call, then the single phase-3
back-conversion — so Phase 2 starts only after all five conversions have
returned and Phase 3 only after Phase 2 has returned. -/
theorem C5_phase_sequencing (results : List String → Int) (p ifp dp g : String) :
    execs (main_run results [] [p, ifp, dp, g] []).1.events =
      [conv_call ifp dp "head", conv_call ifp dp "travel_time",
       conv_call ifp dp "first_out", conv_call ifp dp "latitude",
       conv_call ifp dp "longitude", order_call ifp dp g, text_call ifp dp g] := by
  rw [main_run_full]
  simp [full_events, phase1_events, attribute_files, execs]

/-- Claim C6: the layout pattern is idempotent — after one successful
ensuring of a subdirectory, ensuring it again on the resulting state
returns that state unchanged (no creation, no new trace event) and does
not fail; across the two calls at most one `mkdir` happens. -/
theorem C6_layout_idempotent (denied : List String) (p : String) (s s1 : St)
    (h : ensure_dir denied p s = (s1, none)) :
    ensure_dir denied p s1 = (s1, none) ∧
    (s1.events = s.events ∨ s1.events = s.events ++ [Event.mkdirE p]) := by
  cases he : existsPath s.fs p with
  | true =>
    rw [ensure_dir_of_exists denied he] at h
    injection h with h1 _
    subst h1
    exact ⟨ensure_dir_of_exists denied he, Or.inl rfl⟩
  | false =>
    cases hd : denied.contains p with
    | true =>
      rw [ensure_dir_of_denied he hd] at h
      injection h with _ h2
      exact absurd h2 (by simp)
    | false =>
      rw [ensure_dir_of_new he hd] at h
      injection h with h1 _
      subst h1
      refine ⟨?_, Or.inr rfl⟩
      exact ensure_dir_of_exists denied (by simp [existsPath])

/-- Witness for C6 at concrete inputs. -/
theorem C6_witness :
    ensure_dir [] "/d/binary"
        (St.mk [("/d/binary", Entry.dir)] [Event.mkdirE "/d/binary"]) =
      (St.mk [("/d/binary", Entry.dir)] [Event.mkdirE "/d/binary"], none) ∧
    ((St.mk [("/d/binary", Entry.dir)] [Event.mkdirE "/d/binary"]).events =
       (St.mk [] []).events ∨
     (St.mk [("/d/binary", Entry.dir)] [Event.mkdirE "/d/binary"]).events =
       (St.mk [] []).events ++ [Event.mkdirE "/d/binary"]) :=
  C6_layout_idempotent [] "/d/binary" (St.mk [] [])
    (St.mk [("/d/binary", Entry.dir)] [Event.mkdirE "/d/binary"]) (by decide)

/-- Claim C7 (counterexample): when the target path collides with an existing
NON-directory entry, no creation failure occurs at all — the existence check
does not distinguish entry kinds, so ensuring is a successful no-op and the
whole pipeline still runs to completion instead of aborting. -/
theorem C7_counterexample :
    ensure_dir [] "/d/binary" (St.mk [("/d/binary", Entry.file)] []) =
      (St.mk [("/d/binary", Entry.file)] [], none) ∧
    (main_run (fun _ => 0) [] ["prog", "/t", "/d", "g"]
      [("/d/binary", Entry.file)]).2 = none ∧
    Event.mkdirE ("/d" ++ "/binary") ∉
      (main_run (fun _ => 0) [] ["prog", "/t", "/d", "g"]
        [("/d/binary", Entry.file)]).1.events := by
  decide

/-- Claim C7 (amended): if creating a required subdirectory fails (e.g. the
OS denies creation), the failure propagates to the caller and aborts the
pipeline immediately with no retry; but when the target path already exists
— whether as a directory or as any other entry — no creation is attempted
and ensuring is a successful no-op, so a collision with an existing
non-directory entry does not abort at the layout step. -/
theorem C7_mkdir_failure_propagates (results : List String → Int)
    (denied : List String) (p ifp dp g q : String) (k : Entry) (fs : FS)
    (ev : List Event) :
    main_run results [dp ++ "/binary"] [p, ifp, dp, g] [] =
      (St.mk [] [], some (Err.mkdirFailed (dp ++ "/binary"))) ∧
    ensure_dir denied q (St.mk ((q, k) :: fs) ev) = (St.mk ((q, k) :: fs) ev, none) := by
  constructor
  · simp [main_run, attribute_files, andThen, withArg, convert_network_into_binary,
      ensure_dir, mkdir, existsPath, List.get?]
  · exact ensure_dir_of_exists denied (by simp [existsPath])

/-- Claim C8: the phase-2 ordering invocation's argument list is exactly
`[interpreter, p ++ "/inertialflowcutter_order.py", d ++ "/binary/",
d ++ "/ordering/" ++ g ++ "_bin"]`, the binary-directory argument carrying
its trailing slash. -/
theorem C8_ordering_invocation (results : List String → Int)
    (denied : List String) (pth d g : String) (s s1 : St)
    (h : compute_ordering results denied pth d g s = (s1, none)) :
    s1.events.getLast? =
      some (Event.exec ["python3", pth ++ "/inertialflowcutter_order.py",
        d ++ "/binary/", d ++ "/ordering/" ++ g ++ "_bin"]) := by
  rcases compute_ordering_events results denied pth d g s s1 h with h2 | h2 <;> rw [h2]
  · exact getLast_app _ _
  · exact getLast_app2 _ _ _

/-- Witness for C8 at concrete inputs. -/
theorem C8_witness :
    (St.mk [("/d/ordering", Entry.dir)]
        [Event.exec (order_call "/t" "/d" "g")]).events.getLast? =
      some (Event.exec ["python3", "/t" ++ "/inertialflowcutter_order.py",
        "/d" ++ "/binary/", "/d" ++ "/ordering/" ++ "g" ++ "_bin"]) :=
  C8_ordering_invocation (fun _ => 0) [] "/t" "/d" "g"
    (St.mk [("/d/ordering", Entry.dir)] [])
    (St.mk [("/d/ordering", Entry.dir)] [Event.exec (order_call "/t" "/d" "g")])
    (by decide)

/-- Claim C9: no phase writes to a source attribute file — every destination
(the last argument of any traced process call of a full run) differs from
every source attribute path `d ++ "/" ++ m`, `m` among the five names. -/
theorem C9_inputs_never_written (results : List String → Int)
    (p ifp d g m : String) (hm : m ∈ attribute_files) :
    ∀ dst ∈ (main_run results [] [p, ifp, d, g] []).1.events.filterMap dest_of,
      dst ≠ d ++ "/" ++ m := by
  rw [main_run_full]
  intro dst hdst
  simp [full_events, phase1_events, attribute_files, dest_of, conv_call,
    order_call, text_call] at hdst
  rcases hdst with h | h | h | h | h | h | h <;> subst h
  · exact bin_dest_ne_src d "head" m (by decide) hm
  · exact bin_dest_ne_src d "travel_time" m (by decide) hm
  · exact bin_dest_ne_src d "first_out" m (by decide) hm
  · exact bin_dest_ne_src d "latitude" m (by decide) hm
  · exact bin_dest_ne_src d "longitude" m (by decide) hm
  · exact ordbin_dest_ne_src d g m hm
  · exact ord_dest_ne_src d g m hm

/-- Witness for C9 at concrete inputs. -/
theorem C9_witness :
    ("/d" ++ "/binary/" ++ "head") ≠ "/d" ++ "/" ++ "head" :=
  C9_inputs_never_written (fun _ => 0) "prog" "/t" "/d" "g" "head" (by decide)
    ("/d" ++ "/binary/" ++ "head") (by decide)

/-- Claim C10: invoked with only two positional arguments, all five phase-1
conversions still run — creating `binary/` and tracing the five converter
calls — and the run then fails with an out-of-range access of argument 3
at the first read for phase 2; no phase-2 or phase-3 call is ever traced. -/
theorem C10_two_args_phase1_then_index_error (results : List String → Int)
    (p ifp dp : String) :
    main_run results [] [p, ifp, dp] [] =
      (St.mk [(dp ++ "/binary", Entry.dir)] (phase1_events ifp dp),
        some (Err.indexError 3)) ∧
    execs (phase1_events ifp dp) =
      [conv_call ifp dp "head", conv_call ifp dp "travel_time",
       conv_call ifp dp "first_out", conv_call ifp dp "latitude",
       conv_call ifp dp "longitude"] :=
  ⟨main_run_two_args results p ifp dp,
   by simp [phase1_events, attribute_files, execs]⟩

